import Mathlib

/-!
Shallow embedding of the `unik` UUID library (the crate rooted at `src/lib.rs`
with the generation strategies in `src/rfc4122/`), together with theorems
checking the natural-language specification against it.

Modelling conventions:
* Rust machine integers (`u8`, `u16`, `u32`, `u64`, `u128`) are represented as
  `Nat` carrying their type's range invariant; wrapping and byte extraction are
  written with explicit `% 256`, `/ 2^k`, `% 2^32`, ... .
* `MacAddress` (crate `mac_address`) is a plain record of six bytes; its
  `new`/`bytes` pair is the identity on those bytes, which is all the library
  uses of it.
* Rust `&str` values are represented as their UTF-8 byte sequences
  (`List Nat`), since `String::len`, slicing `&us[a..b]` and `retain` in
  `UUID::from_str` all operate at the byte/char-boundary level.
* Fallible Rust functions returning `Result<_, &str>` are embedded with the
  `RustResult` type below; code paths that panic in Rust (out-of-range or
  non-char-boundary slicing) are made explicit with a `panic` constructor.
* The random inputs drawn from `nanorand::WyRand` and the ambient clock are
  external collaborators; they enter the embedding as explicit parameters of
  the generation functions.
-/

namespace Unik

/-- Result type mirroring Rust `Result<T, &str>` as used throughout `lib.rs`. -/
inductive RustResult (α : Type) where
  | ok (a : α)
  | err (msg : String)
deriving DecidableEq, Repr

/-- Embedding of `mac_address::MacAddress`: six bytes (`u8` each).
`MacAddress::new(bytes)` is `mk` and `.bytes()` returns the six fields. -/
structure MacAddress where
  m0 : Nat
  m1 : Nat
  m2 : Nat
  m3 : Nat
  m4 : Nat
  m5 : Nat
deriving DecidableEq, Repr

/-- Embedding of `Bytes = [u8; 16]` (and hence of the `UUID` newtype, which is
just a `[u8; 16]` wrapper): sixteen bytes, each a `u8`. -/
structure Bytes16 where
  b0 : Nat
  b1 : Nat
  b2 : Nat
  b3 : Nat
  b4 : Nat
  b5 : Nat
  b6 : Nat
  b7 : Nat
  b8 : Nat
  b9 : Nat
  b10 : Nat
  b11 : Nat
  b12 : Nat
  b13 : Nat
  b14 : Nat
  b15 : Nat
deriving DecidableEq, Repr

/-- All sixteen entries of a `Bytes16` are in `u8` range. -/
def Bytes16.valid (b : Bytes16) : Prop :=
  b.b0 < 256 ∧ b.b1 < 256 ∧ b.b2 < 256 ∧ b.b3 < 256 ∧
  b.b4 < 256 ∧ b.b5 < 256 ∧ b.b6 < 256 ∧ b.b7 < 256 ∧
  b.b8 < 256 ∧ b.b9 < 256 ∧ b.b10 < 256 ∧ b.b11 < 256 ∧
  b.b12 < 256 ∧ b.b13 < 256 ∧ b.b14 < 256 ∧ b.b15 < 256

instance (b : Bytes16) : Decidable b.valid := by
  unfold Bytes16.valid; infer_instance

/-- Embedding of `struct Layout` from `lib.rs`: the five sub-fields plus the
node address.  `field_low : u32`, `field_mid field_high_and_version : u16`,
`clock_seq_high_and_reserved clock_seq_low : u8`. -/
structure Layout where
  field_low : Nat
  field_mid : Nat
  field_high_and_version : Nat
  clock_seq_high_and_reserved : Nat
  clock_seq_low : Nat
  node : MacAddress
deriving DecidableEq, Repr

/-- The range invariants that Rust's integer types impose on `Layout`. -/
def Layout.valid (l : Layout) : Prop :=
  l.field_low < 2 ^ 32 ∧ l.field_mid < 2 ^ 16 ∧
  l.field_high_and_version < 2 ^ 16 ∧
  l.clock_seq_high_and_reserved < 256 ∧ l.clock_seq_low < 256 ∧
  l.node.m0 < 256 ∧ l.node.m1 < 256 ∧ l.node.m2 < 256 ∧
  l.node.m3 < 256 ∧ l.node.m4 < 256 ∧ l.node.m5 < 256

instance (l : Layout) : Decidable l.valid := by
  unfold Layout.valid; infer_instance

/-- Embedding of `enum Version` from `lib.rs` (`TIME = 1`, ..., `SHA1 = 5`). -/
inductive Version where
  | TIME
  | DCE
  | MD5
  | RAND
  | SHA1
deriving DecidableEq, Repr

/-- Embedding of `enum Variant` from `lib.rs` (`NCS = 0`, `RFC4122 = 1`,
`MS = 2`, `FUT = 3`; these discriminant values are what
`Variant::RFC4122 as u8` evaluates to in the `layout!` macro). -/
inductive Variant where
  | NCS
  | RFC4122
  | MS
  | FUT
deriving DecidableEq, Repr

/-- `Layout::from_raw_bytes` (`lib.rs:48`): little-endian assembly of
`field_low` from bytes 0-3, `field_mid` from 4-5, `field_high_and_version`
from 6-7; bytes 8 and 9 are the clock-sequence bytes and 10-15 the node. -/
def Layout.from_raw_bytes (b : Bytes16) : Layout :=
  { field_low := b.b0 + b.b1 * 256 + b.b2 * 65536 + b.b3 * 16777216
    field_mid := b.b4 + b.b5 * 256
    field_high_and_version := b.b6 + b.b7 * 256
    clock_seq_high_and_reserved := b.b8
    clock_seq_low := b.b9
    node := ⟨b.b10, b.b11, b.b12, b.b13, b.b14, b.b15⟩ }

/-- `Layout::generate` (`lib.rs:65`): serializes the fields back to 16 bytes,
each multi-byte field in little-endian order (`to_le_bytes`). -/
def Layout.generate (l : Layout) : Bytes16 :=
  { b0 := l.field_low % 256
    b1 := l.field_low / 256 % 256
    b2 := l.field_low / 65536 % 256
    b3 := l.field_low / 16777216 % 256
    b4 := l.field_mid % 256
    b5 := l.field_mid / 256 % 256
    b6 := l.field_high_and_version % 256
    b7 := l.field_high_and_version / 256 % 256
    b8 := l.clock_seq_high_and_reserved
    b9 := l.clock_seq_low
    b10 := l.node.m0
    b11 := l.node.m1
    b12 := l.node.m2
    b13 := l.node.m3
    b14 := l.node.m4
    b15 := l.node.m5 }

/-- `Layout::version` (`lib.rs:91`): reads the top four bits of the `u16`
`field_high_and_version` (`>> 0xc`) and maps 1..5 to the `Version` values. -/
def Layout.version (l : Layout) : RustResult Version :=
  match l.field_high_and_version / 4096 with
  | 1 => .ok .TIME
  | 2 => .ok .DCE
  | 3 => .ok .MD5
  | 4 => .ok .RAND
  | 5 => .ok .SHA1
  | _ => .err "Invalid version"

/-- `Layout::variant` (`lib.rs:103`): classifies
`(clock_seq_high_and_reserved >> 5) & 7`; 0..3 is NCS, 4 or 5 is RFC4122,
6 is MS, 7 is FUT. -/
def Layout.variant (l : Layout) : RustResult Variant :=
  match l.clock_seq_high_and_reserved / 32 % 8 with
  | 0 => .ok .NCS
  | 1 => .ok .NCS
  | 2 => .ok .NCS
  | 3 => .ok .NCS
  | 4 => .ok .RFC4122
  | 5 => .ok .RFC4122
  | 6 => .ok .MS
  | 7 => .ok .FUT
  | _ => .err "Invalid variant"

/-- The `layout!` macro (`lib.rs:404`), applied to sixteen `u8` arguments.
It ORs the little-endian bytes into the integer fields (for disjoint shifted
bytes `|` equals `+`), and builds `clock_seq_high_and_reserved` as
`(b8 & 0xf) | ((Variant::RFC4122 as u8) << 4)`, i.e. `b8 % 16 + 16`.
The macro's `crate::Cell::new(MacAddress::new(...))` wrapper around the node
is dropped: `Layout.node` is declared as a bare `MacAddress` in `lib.rs`, and
only the six node bytes are ever read back. -/
def layoutMacro (a0 a1 a2 a3 a4 a5 a6 a7 a8 a9 a10 a11 a12 a13 a14 a15 : Nat) :
    Layout :=
  { field_low := a0 + a1 * 256 + a2 * 65536 + a3 * 16777216
    field_mid := a4 + a5 * 256
    field_high_and_version := a6 + a7 * 256
    clock_seq_high_and_reserved := a8 % 16 + 16
    clock_seq_low := a9
    node := ⟨a10, a11, a12, a13, a14, a15⟩ }

/-- Embedding of `struct TimeStamp(u64)`. -/
structure TimeStamp where
  val : Nat
deriving DecidableEq, Repr

/-- Embedding of `struct ClockSeq(pub u16)`. -/
structure ClockSeq where
  val : Nat
deriving DecidableEq, Repr

/-- `ClockSeq::new` (`lib.rs:399`): builds a fresh local
`AtomicU16::new(self.0)` and calls `fetch_add(1, SeqCst)` on it.
`fetch_add` returns the previous value, i.e. `self.0`, and the incremented
temporary atomic is dropped immediately; the `ClockSeq` itself (taken by `&self`)
is never mutated.  The embedding therefore returns the stored value together
with the unchanged state. -/
def ClockSeq.new (c : ClockSeq) : Nat × ClockSeq :=
  (c.val, c)

/-- Byte `i` of the little-endian representation of a `u64` value. -/
def leByte (t i : Nat) : Nat := t / 2 ^ (8 * i) % 256

/-- `UUID::v1` (`rfc4122/v1.rs:41`).  The two clock-sequence bytes come from
two separate calls to `clock_seq_high_and_reserved()`, each of which draws a
fresh `WyRand` value `r` and returns `ClockSeq::new(r) = r`; those two
independent random `u16` draws are the explicit parameters `r1` and `r2`.
Byte 8 of the macro call is `r1.to_le_bytes()[0]` and byte 9 is
`r2.to_le_bytes()[1]`.  Byte 7 is `(Version::TIME as u8) << 4 = 16`, so the
eighth timestamp byte is never stored. -/
def UUID.v1 (time : TimeStamp) (r1 r2 : Nat) (node : MacAddress) : Layout :=
  layoutMacro
    (leByte time.val 0) (leByte time.val 1) (leByte time.val 2)
    (leByte time.val 3) (leByte time.val 4) (leByte time.val 5)
    (leByte time.val 6) 16
    (r1 % 256) (r2 / 256 % 256)
    node.m0 node.m1 node.m2 node.m3 node.m4 node.m5

/-- `Layout::get_timestamp` (`rfc4122/v1.rs:9`):
`field_low | field_mid << 32 | ((field_high_and_version >> 4) & 0xff) << 48`.
For in-range (`Layout.valid`) fields the ORed parts occupy disjoint bit
ranges, so `|` is `+`. -/
def Layout.get_timestamp (l : Layout) : Nat :=
  l.field_low + l.field_mid * 2 ^ 32 +
    (l.field_high_and_version / 16 % 256) * 2 ^ 48

/-! ### The string parser `UUID::from_str` (`lib.rs:257`)

Rust `&str` values are modelled as lists of UTF-8 bytes.  `String::len` is the
byte length; `retain` drops characters (ASCII whitespace and `'-'` are
single-byte characters, so a byte-level filter is equivalent); the slice
`&us[i*2..i*2+2]` panics when an index is out of bounds or not on a character
boundary, which the embedding records with an explicit `panic` outcome. -/

/-- Outcome of `UUID::from_str`: `Ok(Layout)`, `Err(&str)`, or a Rust panic
raised by out-of-range / non-boundary string slicing. -/
inductive ParseOutcome where
  | ok (l : Layout)
  | err (msg : String)
  | panic
deriving DecidableEq, Repr

/-- Rust `char::is_ascii_whitespace`: space, tab, newline, form feed,
carriage return. -/
def isAsciiWhitespace (b : Nat) : Bool :=
  b = 32 || b = 9 || b = 10 || b = 12 || b = 13

/-- The conditional `retain` of `from_str`: only when the string contains a
hyphen are ASCII whitespace and hyphen characters removed. -/
def stripSeparators (us : List Nat) : List Nat :=
  if us.contains 45 then
    us.filter (fun b => !(isAsciiWhitespace b) && b ≠ 45)
  else us

/-- Value of an ASCII hex digit (`0-9`, `a-f`, `A-F`), as recognized by
`u8::from_str_radix(_, 16)`. -/
def hexVal (b : Nat) : Option Nat :=
  if 48 ≤ b ∧ b ≤ 57 then some (b - 48)
  else if 97 ≤ b ∧ b ≤ 102 then some (b - 87)
  else if 65 ≤ b ∧ b ≤ 70 then some (b - 55)
  else none

/-- `u8::from_str_radix(s, 16)` on a two-byte slice: a leading `'+'` is
accepted as a sign (leaving a single digit); a leading `'-'` is not a sign for
an unsigned type and fails as a non-digit; otherwise both bytes must be hex
digits.  Two hex digits can never overflow `u8`. -/
def parsePair (c0 c1 : Nat) : Option Nat :=
  if c0 = 43 then hexVal c1
  else
    match hexVal c0, hexVal c1 with
    | some hi, some lo => some (16 * hi + lo)
    | _, _ => none

/-- Rust `str::is_char_boundary` at position `p` (for `p ≤ len`): true at the
end of the string or when the byte at `p` is not a UTF-8 continuation byte. -/
def isCharBoundary (us : List Nat) (p : Nat) : Bool :=
  p = us.length || !(128 ≤ us.getD p 0 && us.getD p 0 < 192)

/-- Result of evaluating the slice `&us[2*i..2*i+2]`: the two bytes, or a
panic when the range is out of bounds or not on character boundaries. -/
inductive SliceRes where
  | ok (c0 c1 : Nat)
  | panic
deriving DecidableEq, Repr

/-- The slice `&us[2*i..2*i+2]` with Rust's bounds and char-boundary checks. -/
def slicePair (us : List Nat) (i : Nat) : SliceRes :=
  if 2 * i + 2 ≤ us.length ∧ isCharBoundary us (2 * i) = true ∧
      isCharBoundary us (2 * i + 2) = true then
    .ok (us.getD (2 * i) 0) (us.getD (2 * i + 1) 0)
  else .panic

/-- Outcome of the parse loop: the decoded bytes, an early `Err` return from a
failed `from_str_radix`, or a panic from slicing. -/
inductive LoopRes where
  | ok (bs : List Nat)
  | err
  | panic
deriving DecidableEq, Repr

/-- The loop `for i in 0..15` of `from_str`, processing `fuel` indices starting
at `i`: each step slices two bytes (possible panic), hex-parses them (early
`Err` return), and appends the decoded byte. -/
def readPairs (us : List Nat) : Nat → Nat → LoopRes
  | _, 0 => .ok []
  | i, fuel + 1 =>
    match slicePair us i with
    | .panic => .panic
    | .ok c0 c1 =>
      match parsePair c0 c1 with
      | none => .err
      | some v =>
        match readPairs us (i + 1) fuel with
        | .ok bs => .ok (v :: bs)
        | .err => .err
        | .panic => .panic

/-- The final `Ok(Layout { ... })` of `from_str` (`lib.rs:275`), built from
the decoded `bytes` array: each multi-byte field is assembled from its bytes
in reversed (big-endian) order relative to `from_raw_bytes`/`generate`
(`u32::from_le_bytes([bytes[3], bytes[2], bytes[1], bytes[0]])` and so on).
The loop filled only indices 0..14, so `bytes[15]` — read here as the last
node byte — is the array's zero initialization (`getD` out of range). -/
def layoutFromParsedBytes (bs : List Nat) : Layout :=
  { field_low := bs.getD 3 0 + bs.getD 2 0 * 256 + bs.getD 1 0 * 65536 +
      bs.getD 0 0 * 16777216
    field_mid := bs.getD 5 0 + bs.getD 4 0 * 256
    field_high_and_version := bs.getD 7 0 + bs.getD 6 0 * 256
    clock_seq_high_and_reserved := bs.getD 8 0
    clock_seq_low := bs.getD 9 0
    node := ⟨bs.getD 10 0, bs.getD 11 0, bs.getD 12 0, bs.getD 13 0,
      bs.getD 14 0, bs.getD 15 0⟩ }

/-- `UUID::from_str` (`lib.rs:257`).  The byte length must be 36 or 32
(checked before any stripping); separators are stripped only when a hyphen
is present; the loop decodes the byte pairs at offsets 0,2,...,28 — fifteen
pairs — and the `Layout` is assembled by `layoutFromParsedBytes`. -/
def UUID.from_str (input : List Nat) : ParseOutcome :=
  if input.length = 36 ∨ input.length = 32 then
    match readPairs (stripSeparators input) 0 15 with
    | .panic => .panic
    | .err => .err "Invalid UUID string"
    | .ok bs => .ok (layoutFromParsedBytes bs)
  else .err "Invalid UUID string"

/-! ### Hex rendering (`Display`/`LowerHex` for `UUID`, `lib.rs:287,313`) -/

/-- Lowercase hex digit character (as a byte) for a value below 16. -/
def hexDigitChar (n : Nat) : Nat := if n < 10 then 48 + n else 87 + n

/-- `{:02x}` rendering of a `u8`: exactly two lowercase hex characters. -/
def byteHex (b : Nat) : List Nat := [hexDigitChar (b / 16), hexDigitChar (b % 16)]

/-- `format!("{}", uuid)` (`Display for UUID`): the 16 bytes as 32 lowercase
hex characters with no separators. -/
def UUID.display (u : Bytes16) : List Nat :=
  byteHex u.b0 ++ byteHex u.b1 ++ byteHex u.b2 ++ byteHex u.b3 ++
  byteHex u.b4 ++ byteHex u.b5 ++ byteHex u.b6 ++ byteHex u.b7 ++
  byteHex u.b8 ++ byteHex u.b9 ++ byteHex u.b10 ++ byteHex u.b11 ++
  byteHex u.b12 ++ byteHex u.b13 ++ byteHex u.b14 ++ byteHex u.b15

/-- `format!("{:x}", uuid)` (`LowerHex for UUID`): the canonical hyphenated
8-4-4-4-12 lowercase form (byte 45 is `'-'`). -/
def UUID.lowerHex (u : Bytes16) : List Nat :=
  byteHex u.b0 ++ byteHex u.b1 ++ byteHex u.b2 ++ byteHex u.b3 ++ [45] ++
  byteHex u.b4 ++ byteHex u.b5 ++ [45] ++
  byteHex u.b6 ++ byteHex u.b7 ++ [45] ++
  byteHex u.b8 ++ byteHex u.b9 ++ [45] ++
  byteHex u.b10 ++ byteHex u.b11 ++ byteHex u.b12 ++ byteHex u.b13 ++
  byteHex u.b14 ++ byteHex u.b15

/-! ### SHA-1 and MD5 (external collaborator crates `sha1` and `md5`)

`UUID::v3` calls `Sha1::from(...).digest().bytes()` and `UUID::v5` calls
`md5::compute(...)`.  These digest functions come from external crates; they
are modelled here by executable reference implementations of SHA-1 (RFC 3174)
and MD5 (RFC 1321) over byte lists, with 32-bit words as `Nat` reduced
`% 2^32`. -/

/-- Reduce to a 32-bit word. -/
def w32 (x : Nat) : Nat := x % 4294967296

/-- Left-rotation of a 32-bit word by `s` bits (for `x < 2^32`, `0 < s < 32`). -/
def rotl (s x : Nat) : Nat := (x * 2 ^ s + x / 2 ^ (32 - s)) % 4294967296

/-- Split a list into chunks of `n` elements (fuel-driven so that it reduces). -/
def chunkifyAux (n : Nat) : Nat → List Nat → List (List Nat)
  | 0, _ => []
  | _, [] => []
  | fuel + 1, l => l.take n :: chunkifyAux n fuel (l.drop n)

/-- Split a byte list into chunks of `n` bytes. -/
def chunks (n : Nat) (l : List Nat) : List (List Nat) := chunkifyAux n l.length l

/-- Big-endian 8-byte encoding of a 64-bit value. -/
def beBytes8 (n : Nat) : List Nat :=
  [n / 2 ^ 56 % 256, n / 2 ^ 48 % 256, n / 2 ^ 40 % 256, n / 2 ^ 32 % 256,
   n / 2 ^ 24 % 256, n / 2 ^ 16 % 256, n / 2 ^ 8 % 256, n % 256]

/-- Little-endian 8-byte encoding of a 64-bit value. -/
def leBytes8 (n : Nat) : List Nat :=
  [n % 256, n / 2 ^ 8 % 256, n / 2 ^ 16 % 256, n / 2 ^ 24 % 256,
   n / 2 ^ 32 % 256, n / 2 ^ 40 % 256, n / 2 ^ 48 % 256, n / 2 ^ 56 % 256]

/-- Big-endian 4-byte encoding of a 32-bit word. -/
def beBytes4 (w : Nat) : List Nat :=
  [w / 2 ^ 24 % 256, w / 2 ^ 16 % 256, w / 2 ^ 8 % 256, w % 256]

/-- Little-endian 4-byte encoding of a 32-bit word. -/
def leBytes4 (w : Nat) : List Nat :=
  [w % 256, w / 2 ^ 8 % 256, w / 2 ^ 16 % 256, w / 2 ^ 24 % 256]

/-- Interpret a 64-byte block as sixteen big-endian 32-bit words. -/
def wordsBE (block : List Nat) : List Nat :=
  (chunks 4 block).map fun c =>
    c.getD 0 0 * 2 ^ 24 + c.getD 1 0 * 2 ^ 16 + c.getD 2 0 * 2 ^ 8 + c.getD 3 0

/-- Interpret a 64-byte block as sixteen little-endian 32-bit words. -/
def wordsLE (block : List Nat) : List Nat :=
  (chunks 4 block).map fun c =>
    c.getD 0 0 + c.getD 1 0 * 2 ^ 8 + c.getD 2 0 * 2 ^ 16 + c.getD 3 0 * 2 ^ 24

/-- Merkle–Damgård padding: `0x80`, zeros to 56 mod 64, then the bit length
encoded with `lenEnc` (big-endian for SHA-1, little-endian for MD5). -/
def mdPad (lenEnc : Nat → List Nat) (msg : List Nat) : List Nat :=
  msg ++ [128] ++ List.replicate ((119 - msg.length % 64) % 64) 0 ++
    lenEnc (8 * msg.length)

/-- SHA-1 round constants. -/
def sha1K (t : Nat) : Nat :=
  if t < 20 then 1518500249
  else if t < 40 then 1859775393
  else if t < 60 then 2400959708
  else 3395469782

/-- SHA-1 round functions (Ch, Parity, Maj, Parity). -/
def sha1F (t b c d : Nat) : Nat :=
  if t < 20 then (b &&& c) ||| ((b ^^^ 4294967295) &&& d)
  else if t < 40 then b ^^^ c ^^^ d
  else if t < 60 then (b &&& c) ||| (b &&& d) ||| (c &&& d)
  else b ^^^ c ^^^ d

/-- Extend the 16 message-schedule words, one new word per fuel step. -/
def sha1Extend : Nat → List Nat → List Nat
  | 0, ws => ws
  | fuel + 1, ws =>
    let n := ws.length
    sha1Extend fuel
      (ws ++ [rotl 1 (((ws.getD (n - 3) 0) ^^^ (ws.getD (n - 8) 0)) ^^^
        ((ws.getD (n - 14) 0) ^^^ (ws.getD (n - 16) 0)))])

/-- The 80 SHA-1 rounds, from round `t`, running `fuel` rounds. -/
def sha1Rounds (ws : List Nat) :
    Nat → Nat → Nat × Nat × Nat × Nat × Nat → Nat × Nat × Nat × Nat × Nat
  | _, 0, st => st
  | t, fuel + 1, (a, b, c, d, e) =>
    let temp := w32 (rotl 5 a + sha1F t b c d + e + sha1K t + ws.getD t 0)
    sha1Rounds ws (t + 1) fuel (temp, a, rotl 30 b, c, d)

/-- One SHA-1 block step on the running state. -/
def sha1Block (st : Nat × Nat × Nat × Nat × Nat) (block : List Nat) :
    Nat × Nat × Nat × Nat × Nat :=
  let ws := sha1Extend 64 (wordsBE block)
  match st, sha1Rounds ws 0 80 st with
  | (h0, h1, h2, h3, h4), (a, b, c, d, e) =>
    (w32 (h0 + a), w32 (h1 + b), w32 (h2 + c), w32 (h3 + d), w32 (h4 + e))

/-- Serialize the five-word SHA-1 state big-endian. -/
def sha1Out (st : Nat × Nat × Nat × Nat × Nat) : List Nat :=
  beBytes4 st.1 ++ beBytes4 st.2.1 ++ beBytes4 st.2.2.1 ++
    beBytes4 st.2.2.2.1 ++ beBytes4 st.2.2.2.2

/-- SHA-1 digest of a byte list: 20 bytes. -/
def sha1 (msg : List Nat) : List Nat :=
  sha1Out ((chunks 64 (mdPad beBytes8 msg)).foldl sha1Block
    (1732584193, 4023233417, 2562383102, 271733878, 3285377520))

/-- The 64 MD5 sine-table constants. -/
def md5K (i : Nat) : Nat :=
  [3614090360, 3905402710, 606105819, 3250441966,
   4118548399, 1200080426, 2821735955, 4249261313,
   1770035416, 2336552879, 4294925233, 2304563134,
   1804603682, 4254626195, 2792965006, 1236535329,
   4129170786, 3225465664, 643717713, 3921069994,
   3593408605, 38016083, 3634488961, 3889429448,
   568446438, 3275163606, 4107603335, 1163531501,
   2850285829, 4243563512, 1735328473, 2368359562,
   4294588738, 2272392833, 1839030562, 4259657740,
   2763975236, 1272893353, 4139469664, 3200236656,
   681279174, 3936430074, 3572445317, 76029189,
   3654602809, 3873151461, 530742520, 3299628645,
   4096336452, 1126891415, 2878612391, 4237533241,
   1700485571, 2399980690, 4293915773, 2240044497,
   1873313359, 4264355552, 2734768916, 1309151649,
   4149444226, 3174756917, 718787259, 3951481745].getD i 0

/-- The MD5 per-round left-rotation amounts. -/
def md5S (i : Nat) : Nat :=
  [7, 12, 17, 22, 7, 12, 17, 22, 7, 12, 17, 22, 7, 12, 17, 22,
   5, 9, 14, 20, 5, 9, 14, 20, 5, 9, 14, 20, 5, 9, 14, 20,
   4, 11, 16, 23, 4, 11, 16, 23, 4, 11, 16, 23, 4, 11, 16, 23,
   6, 10, 15, 21, 6, 10, 15, 21, 6, 10, 15, 21, 6, 10, 15, 21].getD i 0

/-- MD5 round functions F, G, H, I. -/
def md5F (i b c d : Nat) : Nat :=
  if i < 16 then (b &&& c) ||| ((b ^^^ 4294967295) &&& d)
  else if i < 32 then (d &&& b) ||| ((d ^^^ 4294967295) &&& c)
  else if i < 48 then b ^^^ c ^^^ d
  else c ^^^ (b ||| (d ^^^ 4294967295))

/-- MD5 message-word index per round. -/
def md5G (i : Nat) : Nat :=
  if i < 16 then i
  else if i < 32 then (5 * i + 1) % 16
  else if i < 48 then (3 * i + 5) % 16
  else 7 * i % 16

/-- The 64 MD5 rounds, from round `i`, running `fuel` rounds. -/
def md5Rounds (m : List Nat) :
    Nat → Nat → Nat × Nat × Nat × Nat → Nat × Nat × Nat × Nat
  | _, 0, st => st
  | i, fuel + 1, (a, b, c, d) =>
    let f := w32 (md5F i b c d + a + md5K i + m.getD (md5G i) 0)
    md5Rounds m (i + 1) fuel (d, w32 (b + rotl (md5S i) f), b, c)

/-- One MD5 block step on the running state. -/
def md5Block (st : Nat × Nat × Nat × Nat) (block : List Nat) :
    Nat × Nat × Nat × Nat :=
  match st, md5Rounds (wordsLE block) 0 64 st with
  | (h0, h1, h2, h3), (a, b, c, d) =>
    (w32 (h0 + a), w32 (h1 + b), w32 (h2 + c), w32 (h3 + d))

/-- Serialize the four-word MD5 state little-endian. -/
def md5Out (st : Nat × Nat × Nat × Nat) : List Nat :=
  leBytes4 st.1 ++ leBytes4 st.2.1 ++ leBytes4 st.2.2.1 ++ leBytes4 st.2.2.2

/-- MD5 digest of a byte list: 16 bytes. -/
def md5 (msg : List Nat) : List Nat :=
  md5Out ((chunks 64 (mdPad leBytes8 msg)).foldl md5Block
    (1732584193, 4023233417, 2562383102, 271733878))

/-! ### The name-based and random generators (`rfc4122/v3.rs`, `v4.rs`, `v5.rs`) -/

/-- Byte `i` of a digest (list indexing with the irrelevant default 0). -/
def dByte (l : List Nat) (i : Nat) : Nat := l.getD i 0

/-- The shared shape of the `layout!` invocation in `UUID::v3`, `UUID::v4`
and `UUID::v5`: sixteen source bytes `h 0 .. h 15`, with byte 6 replaced by
`((ver as u8) << 4) | (h 6 & 0xf)` (for `ver ≤ 15` the OR of the disjoint
nibbles is the sum). -/
def tagAndPack (ver : Nat) (h : Nat → Nat) : Layout :=
  layoutMacro (h 0) (h 1) (h 2) (h 3) (h 4) (h 5)
    (ver * 16 + h 6 % 16) (h 7) (h 8) (h 9) (h 10) (h 11) (h 12) (h 13)
    (h 14) (h 15)

/-- `UUID::v3` (`rfc4122/v3.rs:7`): SHA-1 over the concatenation of the
namespace's `Display` rendering (32 lowercase hex characters, no hyphens)
with the name, truncated to 16 bytes (`digest().bytes()[..16]`), tagged with
`Version::MD5 = 3`. -/
def UUID.v3 (data : List Nat) (ns : Bytes16) : Layout :=
  tagAndPack 3 (dByte (sha1 (UUID.display ns ++ data)))

/-- `UUID::v4` (`rfc4122/v4.rs:9`): the sixteen little-endian bytes of a
random `u128` draw `r` (an external input), tagged with `Version::RAND = 4`. -/
def UUID.v4 (r : Nat) : Layout :=
  tagAndPack 4 (leByte r)

/-- `UUID::v5` (`rfc4122/v5.rs:5`): MD5 over the concatenation of the
namespace's `Display` rendering with the name, tagged with
`Version::SHA1 = 5`. -/
def UUID.v5 (data : List Nat) (ns : Bytes16) : Layout :=
  tagAndPack 5 (dByte (md5 (UUID.display ns ++ data)))

/-- `UUID::NAMESPACE_DNS` (`lib.rs:233`). -/
def NAMESPACE_DNS : Bytes16 :=
  ⟨0x6b, 0xa7, 0xb8, 0x10, 0x9d, 0xad, 0x11, 0xd1,
   0x80, 0xb4, 0x00, 0xc0, 0x4f, 0xd4, 0x30, 0xc8⟩

/-! ### Claim-side (specification) definitions, for comparison with the code -/

/-- Formalized from the claim: the two input forms `parse` is supposed to
accept — 36 characters with hyphens at positions 8, 13, 18 and 23, or exactly
32 hex characters with no separators. -/
def claimAcceptedForm (us : List Nat) : Prop :=
  (us.length = 36 ∧ us.getD 8 0 = 45 ∧ us.getD 13 0 = 45 ∧
    us.getD 18 0 = 45 ∧ us.getD 23 0 = 45) ∨
  (us.length = 32 ∧ ∀ b ∈ us, (hexVal b).isSome = true)

instance (us : List Nat) : Decidable (claimAcceptedForm us) := by
  unfold claimAcceptedForm; infer_instance

/-- Formalized from the claim about the name-based generators: the output's
sixteen bytes are the first sixteen digest bytes, with only the version nibble
of byte 6 overwritten by the version code and byte 8 passed through the
system's variant-tagging step (which computes `(b & 0xf) | 0x10`; the value
this step writes is the subject of the separate variant-invariant claim). -/
def nameBasedSpecBytes (ver : Nat) (d : List Nat) : Bytes16 :=
  ⟨dByte d 0, dByte d 1, dByte d 2, dByte d 3, dByte d 4, dByte d 5,
   ver * 16 + dByte d 6 % 16, dByte d 7, dByte d 8 % 16 + 16, dByte d 9,
   dByte d 10, dByte d 11, dByte d 12, dByte d 13, dByte d 14, dByte d 15⟩

/-! ### Helper lemmas -/

/-- Elements of a big-endian word serialization are bytes. -/
theorem beBytes4_lt (w : Nat) : ∀ x ∈ beBytes4 w, x < 256 := by
  intro x hx
  simp only [beBytes4, List.mem_cons, List.not_mem_nil, or_false] at hx
  rcases hx with rfl | rfl | rfl | rfl <;> omega

/-- Elements of a little-endian word serialization are bytes. -/
theorem leBytes4_lt (w : Nat) : ∀ x ∈ leBytes4 w, x < 256 := by
  intro x hx
  simp only [leBytes4, List.mem_cons, List.not_mem_nil, or_false] at hx
  rcases hx with rfl | rfl | rfl | rfl <;> omega

/-- Every SHA-1 output byte is below 256. -/
theorem sha1_mem_lt (msg : List Nat) : ∀ x ∈ sha1 msg, x < 256 := by
  intro x hx
  simp only [sha1, sha1Out, List.mem_append] at hx
  rcases hx with (((hx | hx) | hx) | hx) | hx <;> exact beBytes4_lt _ _ hx

/-- Every MD5 output byte is below 256. -/
theorem md5_mem_lt (msg : List Nat) : ∀ x ∈ md5 msg, x < 256 := by
  intro x hx
  simp only [md5, md5Out, List.mem_append] at hx
  rcases hx with ((hx | hx) | hx) | hx <;> exact leBytes4_lt _ _ hx

/-- `getD` of a list of bytes is a byte (the default 0 included). -/
theorem getD_lt_256 {l : List Nat} (h : ∀ x ∈ l, x < 256) (i : Nat) :
    l.getD i 0 < 256 := by
  induction l generalizing i with
  | nil => simp [List.getD]
  | cons a t ih =>
    cases i with
    | zero => exact h a (List.mem_cons_self a t)
    | succ j =>
      simp only [List.getD_cons_succ]
      exact ih (fun x hx => h x (List.mem_cons_of_mem a hx)) j

/-- The variant decoder always classifies a `layout!`-built value as NCS: the
macro writes `(b8 & 0xf) | 0x10`, which is below 32, so its top three bits
are zero. -/
theorem layoutMacro_variant
    (a0 a1 a2 a3 a4 a5 a6 a7 a8 a9 a10 a11 a12 a13 a14 a15 : Nat) :
    (layoutMacro a0 a1 a2 a3 a4 a5 a6 a7 a8 a9 a10 a11 a12 a13 a14
      a15).variant = .ok .NCS := by
  have h : (a8 % 16 + 16) / 32 % 8 = 0 := by omega
  simp only [layoutMacro, Layout.variant, h]

/-- `generate` of a `tagAndPack` layout recovers the source bytes at every
offset except 6 (version nibble spliced in) and 8 (variant tag spliced in),
provided the source bytes are in `u8` range and the version code fits the
nibble. -/
theorem tagAndPack_generate (ver : Nat) (h : Nat → Nat) (hver : ver ≤ 13)
    (hb : ∀ i, h i < 256) :
    (tagAndPack ver h).generate =
      ⟨h 0, h 1, h 2, h 3, h 4, h 5, ver * 16 + h 6 % 16, h 7,
       h 8 % 16 + 16, h 9, h 10, h 11, h 12, h 13, h 14, h 15⟩ := by
  have h0 := hb 0
  have h1 := hb 1
  have h2 := hb 2
  have h3 := hb 3
  have h4 := hb 4
  have h5 := hb 5
  have h6 := hb 6
  have h7 := hb 7
  simp only [tagAndPack, layoutMacro, Layout.generate, Bytes16.mk.injEq,
    and_true, true_and]
  omega

set_option maxRecDepth 40000

/-! ### Claim theorems -/

/-- C1 (refuting theorem).  The claim states that every generated Identifier
carries the RFC 4122 variant pattern `10` in the top bit pair of
`clock_seq_high_and_reserved` and that `variant()` decodes it as `RFC4122`.
In fact the `layout!` macro computes `(b8 & 0xf) | ((Variant::RFC4122 as
u8) << 4) = (b8 & 0xf) | 0x10`, a value below 32: the top bit pair is `00`
and `variant()` returns `Ok(NCS)` for every identifier produced by v1, v3,
v4 and v5. -/
theorem v1_v3_v4_v5_variant_is_NCS (t : TimeStamp) (r1 r2 : Nat)
    (nd : MacAddress) (data : List Nat) (ns : Bytes16) (r : Nat) :
    (UUID.v1 t r1 r2 nd).clock_seq_high_and_reserved / 64 = 0 ∧
    (UUID.v1 t r1 r2 nd).variant = .ok .NCS ∧
    (UUID.v3 data ns).variant = .ok .NCS ∧
    (UUID.v4 r).variant = .ok .NCS ∧
    (UUID.v5 data ns).variant = .ok .NCS := by
  refine ⟨?_, ?_, ?_, ?_, ?_⟩
  · simp only [UUID.v1, layoutMacro]
    omega
  · exact layoutMacro_variant _ _ _ _ _ _ _ _ _ _ _ _ _ _ _ _
  · exact layoutMacro_variant _ _ _ _ _ _ _ _ _ _ _ _ _ _ _ _
  · exact layoutMacro_variant _ _ _ _ _ _ _ _ _ _ _ _ _ _ _ _
  · exact layoutMacro_variant _ _ _ _ _ _ _ _ _ _ _ _ _ _ _ _

/-- Concrete v1 layout used to exhibit the failure of the string round-trip:
timestamp `0x01020304`, both random clock-sequence draws 0, node
`01:02:03:04:05:06`. -/
def c2Layout : Layout := UUID.v1 ⟨16909060⟩ 0 0 ⟨1, 2, 3, 4, 5, 6⟩

/-- C2 (refuting theorem).  Parsing the canonical hyphenated lowercase hex
rendering of a generated identifier does not reconstruct it:
`from_str` builds each multi-byte field from its hex pairs in the order
opposite to `generate`'s little-endian layout, and it decodes only 15 byte
pairs, zeroing the last node byte.  For the concrete v1 identifier
`04030201-0000-0010-1000-010203040506` the reparsed layout regenerates to a
different byte string (`field_low` comes back byte-reversed as `0x04030201`
and the last node byte as 0 instead of 6). -/
theorem from_str_lowerHex_roundtrip_fails :
    UUID.from_str (UUID.lowerHex c2Layout.generate) =
      .ok ⟨67305985, 0, 16, 16, 0, ⟨1, 2, 3, 4, 5, 0⟩⟩ ∧
    (Layout.mk 67305985 0 16 16 0 ⟨1, 2, 3, 4, 5, 0⟩).generate ≠
      c2Layout.generate := by
  exact ⟨by decide, by decide⟩

/-- The byte string `"test"`. -/
def testName : List Nat := [116, 101, 115, 116]

/-- C3 (refuting theorem).  The name-based generators write the version
nibble into byte 6, which `layout!` makes the LOW byte of
`field_high_and_version`, while `version()` reads the top four bits of that
`u16`, i.e. the top nibble of byte 7 — an uncontrolled digest byte.  For
`v3("test", NAMESPACE_DNS)` the SHA-1 digest byte 7 is `0x7e`, so
`version()` returns `Err("Invalid version")` instead of `Ok(MD5)`; the MD5
digest byte 7 for the same v5 input is `0x7c`, so v5 fails the same way. -/
theorem v3_v5_version_decode_fails :
    (UUID.v3 testName NAMESPACE_DNS).version = .err "Invalid version" ∧
    (UUID.v3 testName NAMESPACE_DNS).version ≠ .ok .MD5 ∧
    (UUID.v5 testName NAMESPACE_DNS).version = .err "Invalid version" ∧
    (UUID.v5 testName NAMESPACE_DNS).version ≠ .ok .SHA1 := by
  refine ⟨by decide, by decide, by decide, by decide⟩

/-- C4.  The bit-field codec round-trips in both directions: unpacking the
generated bytes of any (in-range) `Layout` restores the layout, and
generating from any 16 (in-range) raw bytes restores the bytes; both
directions are total functions with no error outcome. -/
theorem from_raw_bytes_generate_roundtrip (l : Layout) (b : Bytes16)
    (hl : l.valid) (hb : b.valid) :
    Layout.from_raw_bytes l.generate = l ∧
    (Layout.from_raw_bytes b).generate = b := by
  obtain ⟨fl, fm, fhv, csh, csl, m0, m1, m2, m3, m4, m5⟩ := l
  obtain ⟨c0, c1, c2, c3, c4, c5, c6, c7, c8, c9, c10, c11, c12, c13, c14,
    c15⟩ := b
  simp only [Layout.valid, Bytes16.valid] at hl hb
  constructor
  · simp only [Layout.generate, Layout.from_raw_bytes, Layout.mk.injEq,
      MacAddress.mk.injEq, and_true, true_and]
    omega
  · simp only [Layout.generate, Layout.from_raw_bytes, Bytes16.mk.injEq,
      and_true, true_and]
    omega

/-- C4 witness: both round-trip directions at concrete values. -/
theorem from_raw_bytes_generate_roundtrip_witness :
    Layout.from_raw_bytes (Layout.generate
        ⟨305419896, 4660, 43981, 171, 205, ⟨1, 2, 3, 4, 5, 6⟩⟩) =
      ⟨305419896, 4660, 43981, 171, 205, ⟨1, 2, 3, 4, 5, 6⟩⟩ ∧
    (Layout.from_raw_bytes
        ⟨0, 1, 2, 3, 4, 5, 6, 7, 8, 9, 10, 11, 12, 13, 14, 255⟩).generate =
      ⟨0, 1, 2, 3, 4, 5, 6, 7, 8, 9, 10, 11, 12, 13, 14, 255⟩ :=
  from_raw_bytes_generate_roundtrip
    ⟨305419896, 4660, 43981, 171, 205, ⟨1, 2, 3, 4, 5, 6⟩⟩
    ⟨0, 1, 2, 3, 4, 5, 6, 7, 8, 9, 10, 11, 12, 13, 14, 255⟩
    (by decide) (by decide)

/-- C5 (refuting theorem).  `ClockSeq::new` wraps the stored seed in a fresh
local `AtomicU16`, fetch-adds that temporary, and drops it: the call returns
the stored value unchanged and mutates no persistent state, so two
successive calls return the same value — there is no seeded-once,
incrementing counter. -/
theorem clockseq_successive_calls_equal :
    (ClockSeq.mk 42).new = (42, ClockSeq.mk 42) ∧
    ((ClockSeq.mk 42).new.2).new.1 = (ClockSeq.mk 42).new.1 :=
  ⟨rfl, rfl⟩

/-- C7 (refuting theorem).  `from_str` is not total: a 36-character input
consisting solely of hyphens passes the length check, is stripped to the
empty string, and the first loop iteration's slice `&us[0..2]` is out of
bounds — a panic, not a typed error. -/
theorem from_str_panics_on_hyphens :
    UUID.from_str (List.replicate 36 45) = .panic := by decide

/-- C8 (refuting theorem).  v1 does not store a 60-bit timestamp faithfully:
byte 7 of the packed value is overwritten with the version tag, so timestamp
bits 56..59 are lost, and `get_timestamp` reads only 8 bits (bits 4..11 of
`field_high_and_version`) back into bit positions 48..55.  For
`ts = 2^48` the stored high byte is `0x01` and `(fhv >> 4) & 0xff` drops its
low nibble: the recovered timestamp is 0. -/
theorem v1_timestamp_not_recovered :
    (UUID.v1 ⟨281474976710656⟩ 0 0 ⟨0, 0, 0, 0, 0, 0⟩).get_timestamp = 0 ∧
    (UUID.v1 ⟨281474976710656⟩ 0 0 ⟨0, 0, 0, 0, 0, 0⟩).get_timestamp ≠
      281474976710656 := by
  exact ⟨by decide, by decide⟩

/-- A successful parse loop decodes exactly one byte per fuel step. -/
theorem readPairs_ok_length (us : List Nat) :
    ∀ fuel i bs, readPairs us i fuel = .ok bs → bs.length = fuel := by
  intro fuel
  induction fuel with
  | zero =>
    intro i bs h
    unfold readPairs at h
    injection h with h
    subst h
    rfl
  | succ f ih =>
    intro i bs h
    unfold readPairs at h
    split at h
    · exact absurd h (by simp)
    · split at h
      · exact absurd h (by simp)
      · split at h
        · rename_i bs2 heq
          injection h with h
          subst h
          simp [ih (i + 1) bs2 heq]
        · exact absurd h (by simp)
        · exact absurd h (by simp)

/-- C10.  Whatever input `from_str` accepts, the resulting layout's last node
byte — byte 15 of the regenerated identifier — is zero: the parse loop runs
`for i in 0..15` and never decodes the sixteenth byte pair, so `bytes[15]`
keeps its zero initialization. -/
theorem from_str_last_node_byte_zero (us : List Nat) (l : Layout)
    (h : UUID.from_str us = .ok l) :
    l.node.m5 = 0 ∧ (l.generate).b15 = 0 := by
  unfold UUID.from_str at h
  by_cases hlen : us.length = 36 ∨ us.length = 32
  · rw [if_pos hlen] at h
    split at h
    · exact absurd h (by simp)
    · exact absurd h (by simp)
    · rename_i bs hr
      injection h with h
      subst h
      have hlen15 : bs.length = 15 := readPairs_ok_length _ _ _ _ hr
      have h15 : bs.getD 15 0 = 0 :=
        List.getD_eq_default _ _ (by omega)
      exact ⟨h15, h15⟩
  · rw [if_neg hlen] at h
    exact absurd h (by simp)

/-- C10 witness: parsing 32 `'0'` characters succeeds and the theorem applies. -/
theorem from_str_last_node_byte_zero_witness :
    (Layout.mk 0 0 0 0 0 ⟨0, 0, 0, 0, 0, 0⟩).node.m5 = 0 ∧
    ((Layout.mk 0 0 0 0 0 ⟨0, 0, 0, 0, 0, 0⟩).generate).b15 = 0 :=
  from_str_last_node_byte_zero (List.replicate 32 48)
    (Layout.mk 0 0 0 0 0 ⟨0, 0, 0, 0, 0, 0⟩) (by decide)

/-- Whether a parse outcome is `Ok`. -/
def ParseOutcome.isOk : ParseOutcome → Bool
  | .ok _ => true
  | .err _ => false
  | .panic => false

/-- Whether a loop outcome is `Ok`. -/
def LoopRes.isOk : LoopRes → Bool
  | .ok _ => true
  | .err => false
  | .panic => false

/-- One loop step succeeds at index `i` of the stripped string: the slice
`&us[2*i..2*i+2]` is legal and its two bytes hex-parse as a `u8`. -/
def pairOk (s : List Nat) (i : Nat) : Bool :=
  match slicePair s i with
  | .panic => false
  | .ok c0 c1 => (parsePair c0 c1).isSome

/-- A successful parse loop means every processed index was a good pair. -/
theorem readPairs_isOk_forall (s : List Nat) :
    ∀ fuel i, (readPairs s i fuel).isOk = true →
      ∀ j < fuel, pairOk s (i + j) = true := by
  intro fuel
  induction fuel with
  | zero =>
    intro i _ j hj
    omega
  | succ f ih =>
    intro i h j hj
    unfold readPairs at h
    cases hs : slicePair s i with
    | panic =>
      rw [hs] at h
      simp [LoopRes.isOk] at h
    | ok c0 c1 =>
      rw [hs] at h
      simp only [] at h
      cases hp : parsePair c0 c1 with
      | none =>
        rw [hp] at h
        simp [LoopRes.isOk] at h
      | some v =>
        rw [hp] at h
        simp only [] at h
        cases j with
        | zero =>
          unfold pairOk
          rw [Nat.add_zero, hs]
          simp only []
          rw [hp]
          rfl
        | succ k =>
          have hrest : (readPairs s (i + 1) f).isOk = true := by
            cases hr : readPairs s (i + 1) f with
            | ok bs => rfl
            | err => rw [hr] at h; simp [LoopRes.isOk] at h
            | panic => rw [hr] at h; simp [LoopRes.isOk] at h
          have hk := ih (i + 1) hrest k (by omega)
          rw [show i + (k + 1) = i + 1 + k from by omega]
          exact hk

/-- If every index up to `fuel` is a good pair, the parse loop succeeds. -/
theorem forall_readPairs_isOk (s : List Nat) :
    ∀ fuel i, (∀ j < fuel, pairOk s (i + j) = true) →
      (readPairs s i fuel).isOk = true := by
  intro fuel
  induction fuel with
  | zero =>
    intro i _
    rfl
  | succ f ih =>
    intro i hall
    have h0 := hall 0 (by omega)
    rw [Nat.add_zero] at h0
    unfold pairOk at h0
    cases hs : slicePair s i with
    | panic =>
      rw [hs] at h0
      simp at h0
    | ok c0 c1 =>
      rw [hs] at h0
      simp only [] at h0
      cases hp : parsePair c0 c1 with
      | none =>
        rw [hp] at h0
        simp at h0
      | some v =>
        have hrest : (readPairs s (i + 1) f).isOk = true := by
          refine ih (i + 1) fun j hj => ?_
          have hx := hall (j + 1) (by omega)
          rw [show i + (j + 1) = i + 1 + j from by omega] at hx
          exact hx
        unfold readPairs
        rw [hs]
        simp only []
        rw [hp]
        simp only []
        cases hr : readPairs s (i + 1) f with
        | ok bs => rfl
        | err => rw [hr] at hrest; simp [LoopRes.isOk] at hrest
        | panic => rw [hr] at hrest; simp [LoopRes.isOk] at hrest

/-- C6 (amended).  `from_str(s)` succeeds exactly when the byte length of `s`
is 36 or 32 and, after conditionally stripping hyphens and ASCII whitespace,
each of the fifteen two-byte slices at offsets 0, 2, ..., 28 is legal and
hex-parses; hyphen positions are never checked, bytes past offset 30 are
never examined, and every `Err` carries the one undifferentiated message
`"Invalid UUID string"`. -/
theorem from_str_ok_characterization (us : List Nat) :
    ((UUID.from_str us).isOk = true ↔
      (us.length = 36 ∨ us.length = 32) ∧
        ∀ i < 15, pairOk (stripSeparators us) i = true) ∧
    (∀ m, UUID.from_str us = .err m → m = "Invalid UUID string") := by
  constructor
  · unfold UUID.from_str
    by_cases hlen : us.length = 36 ∨ us.length = 32
    · rw [if_pos hlen]
      constructor
      · intro h
        refine ⟨hlen, fun i hi => ?_⟩
        have hok : (readPairs (stripSeparators us) 0 15).isOk = true := by
          cases hr : readPairs (stripSeparators us) 0 15 with
          | ok bs => rfl
          | err => rw [hr] at h; exact absurd h (by simp [ParseOutcome.isOk])
          | panic => rw [hr] at h; exact absurd h (by simp [ParseOutcome.isOk])
        have := readPairs_isOk_forall (stripSeparators us) 15 0 hok i hi
        rwa [Nat.zero_add] at this
      · intro ⟨_, hall⟩
        have hok : (readPairs (stripSeparators us) 0 15).isOk = true := by
          refine forall_readPairs_isOk (stripSeparators us) 15 0 fun j hj => ?_
          rw [Nat.zero_add]
          exact hall j hj
        cases hr : readPairs (stripSeparators us) 0 15 with
        | ok bs => rfl
        | err => rw [hr] at hok; simp [LoopRes.isOk] at hok
        | panic => rw [hr] at hok; simp [LoopRes.isOk] at hok
    · rw [if_neg hlen]
      constructor
      · intro h
        exact absurd h (by simp [ParseOutcome.isOk])
      · intro ⟨hl, _⟩
        exact absurd hl hlen
  · intro m hm
    unfold UUID.from_str at hm
    by_cases hlen : us.length = 36 ∨ us.length = 32
    · rw [if_pos hlen] at hm
      split at hm
      · exact absurd hm (by simp)
      · injection hm with hm
        exact hm.symm
      · exact absurd hm (by simp)
    · rw [if_neg hlen] at hm
      injection hm with hm
      exact hm.symm

/-- C6 amended-claim witness: 32 `'0'`s are accepted via the
characterization, and a 31-byte input takes the error branch. -/
theorem from_str_ok_characterization_witness :
    (UUID.from_str (List.replicate 32 48)).isOk = true ∧
    "Invalid UUID string" = "Invalid UUID string" :=
  ⟨(from_str_ok_characterization (List.replicate 32 48)).1.mpr (by decide),
   (from_str_ok_characterization (List.replicate 31 48)).2
     "Invalid UUID string" (by decide)⟩

/-- C6 (counterexample).  A string of 36 `'0'` characters is in neither of
the two claimed accepted forms — it has no hyphens at positions 8, 13, 18,
23 and is not 32 characters — yet `from_str` accepts it, parsing the first
30 characters and ignoring the rest. -/
theorem from_str_accepts_hyphenless_36 :
    UUID.from_str (List.replicate 36 48) =
      .ok (Layout.mk 0 0 0 0 0 ⟨0, 0, 0, 0, 0, 0⟩) ∧
    ¬ claimAcceptedForm (List.replicate 36 48) := by
  exact ⟨by decide, by decide⟩

/-- C9.  The name-based generators are pure functions of namespace and name
with exactly the claimed structure: the generated identifier's bytes are the
first sixteen digest bytes of (namespace's lowercase-hex string rendering ++
name) — SHA-1 for v3, MD5 for v5 — with only the version nibble of byte 6
overwritten (`0x3_` for v3, `0x5_` for v5) and byte 8 passed through the
variant-tagging step. -/
theorem v3_v5_digest_structure (data : List Nat) (ns : Bytes16) :
    (UUID.v3 data ns).generate =
      nameBasedSpecBytes 3 (sha1 (UUID.display ns ++ data)) ∧
    (UUID.v5 data ns).generate =
      nameBasedSpecBytes 5 (md5 (UUID.display ns ++ data)) := by
  constructor
  · exact tagAndPack_generate 3 (dByte (sha1 (UUID.display ns ++ data)))
      (by omega) (fun i => getD_lt_256 (sha1_mem_lt _) i)
  · exact tagAndPack_generate 5 (dByte (md5 (UUID.display ns ++ data)))
      (by omega) (fun i => getD_lt_256 (md5_mem_lt _) i)

end Unik
